import Mathlib

/-!
Verification of the events CRUD handler (`backend/events/index.py`).

The file embeds the handler shallowly: JSON values and the parts of
`json.loads` / `json.dumps` the handler exercises, the `events` table,
and the four operations (`get_events`, `create_event`, `update_event`,
`delete_event`) dispatched by `handler`.  Machine-level details that the
handler never observes (floating point literals, `\u` string escapes,
timestamp internals — the model keeps `event_date` as its ISO-8601 text,
on which `isoformat` is the identity and the SQL `ORDER BY` is the
lexicographic order) are outside the model and documented at each
definition.
-/

/-- JSON values as produced by `json.loads`.  Number literals are
modelled as integers only: the handler's payloads (titles, ISO dates,
flags, ids) never carry float literals. -/
inductive Json where
  | null : Json
  | bool : Bool → Json
  | num : Int → Json
  | str : String → Json
  | arr : List Json → Json
  | obj : List (String × Json) → Json

/-- The left-brace character, kept out of string literals. -/
def lbrace : Char := Char.ofNat 123

/-- The right-brace character. -/
def rbrace : Char := Char.ofNat 125

/-- Python `dict` lookup (`d.get(k)`): first binding wins; the JSON
parser below keeps keys unique, as `json.loads` does. -/
def alistGet {α : Type} : List (String × α) → String → Option α
  | [], _ => none
  | (k, v) :: rest, key => if k = key then some v else alistGet rest key

/-- Insert a member into a parsed object the way Python dicts do while
`json.loads` builds them: a repeated key keeps its first position but
takes the last value. -/
def objInsert (fs : List (String × Json)) (k : String) (v : Json) : List (String × Json) :=
  if fs.any (fun kv => kv.1 == k) then
    fs.map (fun kv => if kv.1 == k then (k, v) else kv)
  else fs ++ [(k, v)]

/-- JSON whitespace. -/
def isJsonWs (c : Char) : Bool :=
  c = ' ' || c = '\t' || c = '\n' || c = '\r'

/-- Skip leading JSON whitespace. -/
def skipWs : List Char → List Char
  | [] => []
  | c :: cs => if isJsonWs c then skipWs cs else c :: cs

/-- Body of a JSON string literal, after the opening quote.  The common
escapes are modelled; `\u` escapes are outside the model. -/
def parseStringBody : List Char → Except String (String × List Char)
  | [] => .error ("Unterminated string starting at")
  | c :: cs =>
    if c = '"' then .ok ("", cs)
    else if c = '\\' then
      match cs with
      | [] => .error ("Unterminated string starting at")
      | e :: cs2 =>
        let esc : Except String Char :=
          if e = '"' then .ok '"'
          else if e = '\\' then .ok '\\'
          else if e = '/' then .ok '/'
          else if e = 'b' then .ok (Char.ofNat 8)
          else if e = 'f' then .ok (Char.ofNat 12)
          else if e = 'n' then .ok '\n'
          else if e = 'r' then .ok '\r'
          else if e = 't' then .ok '\t'
          else .error ("Invalid escape")
        match esc with
        | .error m => .error m
        | .ok ec =>
          match parseStringBody cs2 with
          | .error m => .error m
          | .ok (rest, cs3) => .ok (String.mk [ec] ++ rest, cs3)
    else
      match parseStringBody cs with
      | .error m => .error m
      | .ok (rest, cs2) => .ok (String.mk [c] ++ rest, cs2)

/-- Read a run of decimal digits (the integer number grammar). -/
def parseDigits : List Char → Nat → (Nat × List Char)
  | [], acc => (acc, [])
  | c :: cs, acc =>
    if c.isDigit then parseDigits cs (acc * 10 + (c.toNat - 48))
    else (acc, c :: cs)

mutual

/-- One JSON value, fuel-bounded recursive descent (`json.loads`).
The error strings stand for the `json.JSONDecodeError` messages; the
handler only forwards them, it never inspects them. -/
def parseVal : Nat → List Char → Except String (Json × List Char)
  | 0, _ => .error ("Nesting too deep")
  | fuel + 1, input =>
    match skipWs input with
    | [] => .error ("Expecting value")
    | 'n' :: 'u' :: 'l' :: 'l' :: rest => .ok (.null, rest)
    | 't' :: 'r' :: 'u' :: 'e' :: rest => .ok (.bool true, rest)
    | 'f' :: 'a' :: 'l' :: 's' :: 'e' :: rest => .ok (.bool false, rest)
    | '"' :: rest =>
      match parseStringBody rest with
      | .error m => .error m
      | .ok (s, rest2) => .ok (.str s, rest2)
    | '-' :: rest =>
      match rest with
      | c :: _ =>
        if c.isDigit then
          let (n, rest2) := parseDigits rest 0
          .ok (.num (-(n : Int)), rest2)
        else .error ("Expecting value")
      | [] => .error ("Expecting value")
    | c :: rest =>
      if c.isDigit then
        let (n, rest2) := parseDigits (c :: rest) 0
        .ok (.num (n : Int), rest2)
      else if c = '[' then
        match skipWs rest with
        | ']' :: rest2 => .ok (.arr [], rest2)
        | other => parseArrElems fuel other []
      else if c = lbrace then parseObjFields fuel rest []
      else .error ("Expecting value")

/-- Elements of a non-empty JSON array, after `[`. -/
def parseArrElems : Nat → List Char → List Json → Except String (Json × List Char)
  | 0, _, _ => .error ("Nesting too deep")
  | fuel + 1, input, acc =>
    match parseVal fuel input with
    | .error m => .error m
    | .ok (v, rest) =>
      match skipWs rest with
      | ',' :: rest2 => parseArrElems fuel rest2 (acc ++ [v])
      | ']' :: rest2 => .ok (.arr (acc ++ [v]), rest2)
      | _ => .error ("Expecting delimiter")

/-- Members of a JSON object, after `\x7b` or after a member comma. -/
def parseObjFields : Nat → List Char → List (String × Json) →
    Except String (Json × List Char)
  | 0, _, _ => .error ("Nesting too deep")
  | fuel + 1, input, acc =>
    match skipWs input with
    | [] => .error ("Unterminated object")
    | c :: rest =>
      if c = rbrace then
        if acc.isEmpty then .ok (.obj [], rest)
        else .error ("Expecting property name enclosed in double quotes")
      else if c = '"' then
        match parseStringBody rest with
        | .error m => .error m
        | .ok (k, rest2) =>
          match skipWs rest2 with
          | ':' :: rest3 =>
            match parseVal fuel rest3 with
            | .error m => .error m
            | .ok (v, rest4) =>
              let acc2 := objInsert acc k v
              match skipWs rest4 with
              | ',' :: rest5 => parseObjFields fuel rest5 acc2
              | d :: rest5 =>
                if d = rbrace then .ok (.obj acc2, rest5)
                else .error ("Expecting delimiter")
              | [] => .error ("Unterminated object")
          | _ => .error ("Expecting colon delimiter")
      else .error ("Expecting property name enclosed in double quotes")

end

/-- `json.loads`: parse a whole document, requiring only trailing
whitespace after the value. -/
def jsonLoads (s : String) : Except String Json :=
  let cs := s.toList
  match parseVal (2 * cs.length + 2) cs with
  | .error m => .error m
  | .ok (v, rest) =>
    if (skipWs rest).isEmpty then .ok v else .error ("Extra data")

/-- Lower-case hexadecimal digit. -/
def hexDigitChar (n : Nat) : Char :=
  if n < 10 then Char.ofNat (48 + n) else Char.ofNat (87 + n)

/-- Four-digit hexadecimal rendering, as in `\uXXXX` escapes. -/
def hex4 (n : Nat) : String :=
  String.mk [hexDigitChar (n / 4096 % 16), hexDigitChar (n / 256 % 16),
             hexDigitChar (n / 16 % 16), hexDigitChar (n % 16)]

/-- Escape one character as `json.dumps` does with its default
`ensure_ascii=True`. -/
def escapeChar (c : Char) : String :=
  if c = '"' then "\\\""
  else if c = '\\' then "\\\\"
  else if c = '\n' then "\\n"
  else if c = '\r' then "\\r"
  else if c = '\t' then "\\t"
  else if c = Char.ofNat 8 then "\\b"
  else if c = Char.ofNat 12 then "\\f"
  else if c.toNat < 32 || 126 < c.toNat then
    if c.toNat < 65536 then "\\u" ++ hex4 c.toNat
    else
      let n := c.toNat - 65536
      "\\u" ++ hex4 (55296 + n / 1024) ++ "\\u" ++ hex4 (56320 + n % 1024)
  else String.mk [c]

/-- A JSON string literal for `s`. -/
def escapeString (s : String) : String :=
  "\"" ++ String.join (s.toList.map escapeChar) ++ "\""

/-- `json.dumps` item separator (default `", "` / `": "`). -/
def joinComma : List String → String
  | [] => ""
  | [x] => x
  | x :: y :: rest => x ++ ", " ++ joinComma (y :: rest)

/-- Fuel-bounded body of `jsonDumps` (structural on the fuel so that
concrete runs reduce inside the kernel). -/
def jsonDumpsF : Nat → Json → String
  | 0, _ => ""
  | fuel + 1, j =>
    match j with
    | .null => "null"
    | .bool true => "true"
    | .bool false => "false"
    | .num n => toString n
    | .str s => escapeString s
    | .arr xs => "[" ++ joinComma (xs.map (jsonDumpsF fuel)) ++ "]"
    | .obj fs =>
      String.mk [lbrace] ++
        joinComma (fs.map (fun kv => escapeString kv.1 ++ ": " ++ jsonDumpsF fuel kv.2)) ++
        String.mk [rbrace]

mutual

/-- Structural size of a JSON value, used as fuel for `jsonDumpsF`. -/
def jsonSize : Json → Nat
  | .null => 1
  | .bool _ => 1
  | .num _ => 1
  | .str _ => 1
  | .arr xs => 1 + jsonSizeList xs
  | .obj fs => 1 + jsonSizeFields fs

/-- Size of a list of JSON values. -/
def jsonSizeList : List Json → Nat
  | [] => 0
  | x :: xs => 1 + jsonSize x + jsonSizeList xs

/-- Size of an object's member list. -/
def jsonSizeFields : List (String × Json) → Nat
  | [] => 0
  | (_, v) :: fs => 1 + jsonSize v + jsonSizeFields fs

end

/-- `json.dumps` with its default separators and `ensure_ascii`;
`jsonSize j` strictly exceeds the nesting depth, so the fuel never
runs out. -/
def jsonDumps (j : Json) : String := jsonDumpsF (jsonSize j) j

example : jsonLoads ("\x7b\x7d") = .ok (.obj []) := rfl
example : jsonLoads ("") = .error ("Expecting value") := rfl
example :
    jsonLoads ("\x7b\"a\": [1, -2, true], \"b\": null\x7d") =
      .ok (.obj [("a", .arr [.num 1, .num (-2), .bool true]), ("b", .null)]) := rfl
example : jsonDumps (.obj [("success", .bool true)]) = "\x7b\"success\": true\x7d" := rfl

/-!
## The events table and the database connection

The table schema is not part of the checked-out sources; per the spec it
has columns `id` (storage-generated unique key), `title`, `event_date`,
`event_type` (all required, non-null), `description` (nullable),
`notification_enabled` (boolean), plus `created_at` / `updated_at`
which the handler never returns and which are therefore not modelled.
-/

/-- Modelled from the spec: one persisted row of the `events` table
(spec section 3).  `event_date` is kept as the ISO-8601 text the client
sent: Python's `isoformat` on the stored timestamp is then the identity,
and the SQL ordering on the column is the lexicographic order of that
text, which coincides with chronological order on the fixed ISO format. -/
structure Row where
  id : Nat
  title : String
  event_date : String
  event_type : String
  description : Option String
  notification_enabled : Bool
deriving DecidableEq

/-- Modelled from the spec: the `events` table, with the key the
storage will assign to the next inserted row (ids are unique and never
reused after deletion). -/
structure DB where
  rows : List Row
  nextId : Nat
deriving DecidableEq

/-- Well-formedness of a table: the string renderings of the row ids
are pairwise distinct (ids are unique). -/
def DB.WF (db : DB) : Prop := (db.rows.map (fun r => toString r.id)).Nodup

instance (db : DB) : Decidable db.WF :=
  inferInstanceAs (Decidable ((db.rows.map (fun r : Row => toString r.id)).Nodup))

/-- The world a single invocation sees: the table behind `DATABASE_URL`,
or, when connecting fails (bad URL, database down), the message of the
exception `psycopg2.connect` raises. -/
structure World where
  connErr : Option String
  db : DB
deriving DecidableEq

/-- `get_db_connection`: yields the table, or raises the connection
error. -/
def get_db_connection (w : World) : Except String DB :=
  match w.connErr with
  | some m => .error m
  | none => .ok w.db

/-- The inbound request: the three fields the handler consumes
(`httpMethod`, `body`, `queryStringParameters`), each possibly absent. -/
structure Request where
  httpMethod : Option String
  body : Option String
  queryStringParameters : Option (List (String × String))
deriving DecidableEq

/-- The outbound response dict. -/
structure Response where
  statusCode : Nat
  headers : List (String × String)
  body : String
  isBase64Encoded : Bool
deriving DecidableEq

/-- The headers every non-OPTIONS branch attaches. -/
def stdHeaders : List (String × String) :=
  [("Content-Type", "application/json"), ("Access-Control-Allow-Origin", "*")]

/-- The OPTIONS-branch CORS headers. -/
def corsHeaders : List (String × String) :=
  [("Access-Control-Allow-Origin", "*"),
   ("Access-Control-Allow-Methods", "GET, POST, PUT, DELETE, OPTIONS"),
   ("Access-Control-Allow-Headers", "Content-Type"),
   ("Access-Control-Max-Age", "86400")]

/-- A JSON response with the standard headers. -/
def mkJsonResp (code : Nat) (j : Json) : Response :=
  ⟨code, stdHeaders, jsonDumps j, false⟩

/-- An error response `\x7b"error": msg\x7d`. -/
def errResp (code : Nat) (msg : String) : Response :=
  mkJsonResp code (.obj [("error", .str msg)])

/-- Python `data.get(...)` on the parsed body: an object yields its
members, anything else raises `AttributeError`. -/
def asObj : Json → Except String (List (String × Json))
  | .obj fs => .ok fs
  | _ => .error ("AttributeError: object has no attribute get")

/-- Modelled from the spec: binding one request value to a text-typed
column parameter.  A Python `None` (absent key or JSON `null`) binds SQL
`NULL`; a string binds itself; a value of any other shape cannot be
stored in the column and raises. -/
def sqlTextParam : Option Json → Except String (Option String)
  | none => .ok none
  | some .null => .ok none
  | some (.str s) => .ok (some s)
  | some _ => .error ("can't adapt parameter to text column")

/-- Modelled from the spec: binding the `notification_enabled`
parameter (boolean column, required). -/
def sqlBoolParam : Json → Except String Bool
  | .bool b => .ok b
  | .null => .error ("null value in column \"notification_enabled\" violates not-null constraint")
  | _ => .error ("can't adapt parameter to boolean column")

/-- Modelled from the spec: writing a required (non-null) column —
`title`, `event_date`, `event_type` — rejects `NULL` with the
database's not-null violation. -/
def requireCol (col : String) : Option String → Except String String
  | some s => .ok s
  | none => .error ("null value in column \"" ++ col ++ "\" violates not-null constraint")

/-- Modelled from the spec: whether the value bound to `WHERE id = %s`
in the UPDATE selects the row with key `n`.  The id travels as the
string rendering of the storage key (or as that integer); `NULL` and
values of any other shape select nothing. -/
def idParamMatches : Json → Nat → Bool
  | .str s, n => s == toString n
  | .num m, n => m == (n : Int)
  | _, _ => false

/-- The Event wire object (camelCase JSON shape) of a stored row. -/
def wireJson (r : Row) : Json :=
  .obj [("id", .str (toString r.id)),
        ("title", .str r.title),
        ("date", .str r.event_date),
        ("type", .str r.event_type),
        ("description", match r.description with | some d => .str d | none => .null),
        ("notificationEnabled", .bool r.notification_enabled)]

/-- Lexicographic order on character lists by code point — on the
fixed-width ISO-8601 date text this is exactly chronological order,
i.e. the order `ORDER BY event_date ASC` sorts by. -/
def strLeB : List Char → List Char → Bool
  | [], _ => true
  | _ :: _, [] => false
  | a :: as, b :: bs =>
    if a.toNat < b.toNat then true
    else if b.toNat < a.toNat then false
    else strLeB as bs

/-- Row comparison used by `ORDER BY event_date ASC`. -/
def rowLe (a b : Row) : Prop := strLeB a.event_date.data b.event_date.data = true

instance : DecidableRel rowLe :=
  fun a b => inferInstanceAs (Decidable (strLeB a.event_date.data b.event_date.data = true))

/-- `strLeB` is total. -/
theorem strLeB_total : ∀ x y : List Char, strLeB x y = true ∨ strLeB y x = true := by
  intro x
  induction x with
  | nil => intro y; left; rfl
  | cons a as ih =>
    intro y
    cases y with
    | nil => right; rfl
    | cons b bs =>
      by_cases hab : a.toNat < b.toNat
      · left; simp [strLeB, hab]
      · by_cases hba : b.toNat < a.toNat
        · right; simp [strLeB, hba]
        · rcases ih bs with h | h
          · left; simp [strLeB, hab, hba, h]
          · right; simp [strLeB, hab, hba, h]

/-- `strLeB` is transitive. -/
theorem strLeB_trans :
    ∀ x y z : List Char, strLeB x y = true → strLeB y z = true → strLeB x z = true := by
  intro x
  induction x with
  | nil => intro y z _ _; rfl
  | cons a as ih =>
    intro y z hxy hyz
    cases y with
    | nil => simp [strLeB] at hxy
    | cons b bs =>
      cases z with
      | nil => simp [strLeB] at hyz
      | cons c cs =>
        simp only [strLeB] at hxy hyz ⊢
        by_cases hab : a.toNat < b.toNat <;> by_cases hbc : b.toNat < c.toNat
        · simp [if_pos (lt_trans hab hbc)]
        · simp only [if_pos hab] at hxy
          simp only [if_neg hbc] at hyz
          by_cases hcb : c.toNat < b.toNat
          · simp [hcb] at hyz
          · have hbc2 : b.toNat = c.toNat := le_antisymm (le_of_not_lt hcb) (le_of_not_lt hbc)
            simp [if_pos (hbc2 ▸ hab)]
        · simp only [if_neg hab] at hxy
          by_cases hba : b.toNat < a.toNat
          · simp [hba] at hxy
          · have hab2 : a.toNat = b.toNat := le_antisymm (le_of_not_lt hba) (le_of_not_lt hab)
            simp [if_pos (hab2 ▸ hbc)]
        · simp only [if_neg hab] at hxy
          simp only [if_neg hbc] at hyz
          by_cases hba : b.toNat < a.toNat
          · simp [hba] at hxy
          · by_cases hcb : c.toNat < b.toNat
            · simp [hcb] at hyz
            · simp only [if_neg hba] at hxy
              simp only [if_neg hcb] at hyz
              have hab2 : a.toNat = b.toNat := le_antisymm (le_of_not_lt hba) (le_of_not_lt hab)
              have hac : ¬ a.toNat < c.toNat → ¬ c.toNat < a.toNat → strLeB as cs = true :=
                fun _ _ => ih bs cs hxy hyz
              by_cases h1 : a.toNat < c.toNat
              · simp [h1]
              · have h2 : ¬ c.toNat < a.toNat := by rw [hab2]; exact hcb
                simp [h1, h2, hac h1 h2]

instance : IsTotal Row rowLe := ⟨fun a b => strLeB_total a.event_date.data b.event_date.data⟩

instance : IsTrans Row rowLe :=
  ⟨fun a b c h1 h2 => strLeB_trans a.event_date.data b.event_date.data c.event_date.data h1 h2⟩

/-- `get_events`: SELECT all rows ordered by `event_date` ascending and
serialize their wire objects under `"events"`. -/
def get_events (w : World) : Except String (DB × Response) :=
  match get_db_connection w with
  | .error e => .error e
  | .ok db =>
    .ok (db, mkJsonResp 200
      (.obj [("events", .arr ((List.insertionSort rowLe db.rows).map wireJson))]))

/-- `create_event`: INSERT a row from the body fields (`title`, `date`,
`type`, `description`, `notificationEnabled` defaulting to true when
absent) and return the stored row, id assigned by storage. -/
def create_event (w : World) (data : Json) : Except String (DB × Response) :=
  match get_db_connection w with
  | .error e => .error e
  | .ok db =>
    match asObj data with
    | .error e => .error e
    | .ok fs =>
      match sqlTextParam (alistGet fs ("title")) with
      | .error e => .error e
      | .ok titleP =>
        match sqlTextParam (alistGet fs ("date")) with
        | .error e => .error e
        | .ok dateP =>
          match sqlTextParam (alistGet fs ("type")) with
          | .error e => .error e
          | .ok typeP =>
            match sqlTextParam (alistGet fs ("description")) with
            | .error e => .error e
            | .ok descP =>
              match sqlBoolParam ((alistGet fs ("notificationEnabled")).getD (.bool true)) with
              | .error e => .error e
              | .ok notif =>
                match requireCol ("title") titleP with
                | .error e => .error e
                | .ok title =>
                  match requireCol ("event_date") dateP with
                  | .error e => .error e
                  | .ok date =>
                    match requireCol ("event_type") typeP with
                    | .error e => .error e
                    | .ok typ =>
                      let r : Row := ⟨db.nextId, title, date, typ, descP, notif⟩
                      .ok (⟨db.rows ++ [r], db.nextId + 1⟩,
                           mkJsonResp 201 (wireJson r))

/-- `update_event`: UPDATE the row matching the body's `id`, rewriting
every field (`updated_at`, which the handler never returns, is not
modelled); an UPDATE that matches no row touches nothing and yields no
RETURNING row, so the handler answers 404. -/
def update_event (w : World) (data : Json) : Except String (DB × Response) :=
  match get_db_connection w with
  | .error e => .error e
  | .ok db =>
    match asObj data with
    | .error e => .error e
    | .ok fs =>
      let idJ := (alistGet fs ("id")).getD .null
      match db.rows.find? (fun r => idParamMatches idJ r.id) with
      | none => .ok (db, errResp 404 ("Event not found"))
      | some r0 =>
        match sqlTextParam (alistGet fs ("title")) with
        | .error e => .error e
        | .ok titleP =>
          match sqlTextParam (alistGet fs ("date")) with
          | .error e => .error e
          | .ok dateP =>
            match sqlTextParam (alistGet fs ("type")) with
            | .error e => .error e
            | .ok typeP =>
              match sqlTextParam (alistGet fs ("description")) with
              | .error e => .error e
              | .ok descP =>
                match sqlBoolParam ((alistGet fs ("notificationEnabled")).getD (.bool true)) with
                | .error e => .error e
                | .ok notif =>
                  match requireCol ("title") titleP with
                  | .error e => .error e
                  | .ok title =>
                    match requireCol ("event_date") dateP with
                    | .error e => .error e
                    | .ok date =>
                      match requireCol ("event_type") typeP with
                      | .error e => .error e
                      | .ok typ =>
                        let db2 : DB :=
                          ⟨db.rows.map (fun r1 =>
                             if idParamMatches idJ r1.id then
                               ⟨r1.id, title, date, typ, descP, notif⟩
                             else r1),
                           db.nextId⟩
                        .ok (db2, mkJsonResp 200
                          (wireJson ⟨r0.id, title, date, typ, descP, notif⟩))

/-- `delete_event`: a missing (or empty, Python falsiness) id is
rejected with 400 before any connection is opened; otherwise DELETE the
matching row, answering 404 when RETURNING yields nothing. -/
def delete_event (w : World) (event_id : Option String) : Except String (DB × Response) :=
  match event_id with
  | none => .ok (w.db, errResp 400 ("Event ID is required"))
  | some s =>
    if s = "" then .ok (w.db, errResp 400 ("Event ID is required"))
    else
      match get_db_connection w with
      | .error e => .error e
      | .ok db =>
        match db.rows.find? (fun r => s == toString r.id) with
        | none => .ok (db, errResp 404 ("Event not found"))
        | some _ =>
          .ok (⟨db.rows.filter (fun r => !(s == toString r.id)), db.nextId⟩,
               mkJsonResp 200 (.obj [("success", .bool true)]))

/-- The default body text a POST/PUT parses when the request carries no
`body` field. -/
def defaultBody : String := "\x7b\x7d"

/-- The `try`-block of `handler`: dispatch on the method, any raised
exception surfacing as `.error`. -/
def dispatch (w : World) (req : Request) : Except String (DB × Response) :=
  let method := req.httpMethod.getD ("GET")
  if method = "GET" then get_events w
  else if method = "POST" then
    match jsonLoads (req.body.getD defaultBody) with
    | .error e => .error e
    | .ok data => create_event w data
  else if method = "PUT" then
    match jsonLoads (req.body.getD defaultBody) with
    | .error e => .error e
    | .ok data => update_event w data
  else if method = "DELETE" then
    let params := req.queryStringParameters.getD []
    delete_event w (alistGet params ("id"))
  else .ok (w.db, errResp 405 ("Method not allowed"))

/-- `handler`: OPTIONS is answered before the `try` block; every
exception anything below raises becomes a 500 carrying the exception's
message, and a failed invocation leaves the table as it was (the
connection closes without a commit). -/
def handler (w : World) (req : Request) : DB × Response :=
  let method := req.httpMethod.getD ("GET")
  if method = "OPTIONS" then (w.db, ⟨200, corsHeaders, "", false⟩)
  else
    match dispatch w req with
    | .ok x => x
    | .error e => (w.db, errResp 500 e)

/-!
## Contracts
-/

set_option maxRecDepth 8192

/-- C1: a GET request, on any table state, answers 200 with
`\x7b"events": [...]\x7d` holding one wire object per stored row
(fields `id` as string, `title`, `date` ISO text, `type`,
`description`, `notificationEnabled`, per `wireJson`), the list sorted
ascending by the event's date, with no filtering and no pagination
(the output is a permutation of the whole table). -/
theorem get_lists_events_sorted (db : DB) (b : Option String)
    (q : Option (List (String × String))) :
    handler ⟨none, db⟩ ⟨some ("GET"), b, q⟩ =
      (db, mkJsonResp 200
        (.obj [("events", .arr ((List.insertionSort rowLe db.rows).map wireJson))])) ∧
    List.Sorted rowLe (List.insertionSort rowLe db.rows) ∧
    (List.insertionSort rowLe db.rows).Perm db.rows ∧
    ((List.insertionSort rowLe db.rows).map wireJson).Perm (db.rows.map wireJson) :=
  ⟨rfl, List.sorted_insertionSort rowLe db.rows,
   List.perm_insertionSort rowLe db.rows,
   (List.perm_insertionSort rowLe db.rows).map wireJson⟩

/-- C6 (amended): a POST or PUT with no `body` field parses the default
text `\x7b\x7d` and proceeds with every body field missing; the parse of
that default succeeds with the empty object.  (An empty-string body, by
contrast, is a parse error — see the counterexample.) -/
theorem absent_body_defaults_to_empty_object (w : World)
    (q : Option (List (String × String))) :
    handler w ⟨some ("POST"), none, q⟩ = handler w ⟨some ("POST"), some defaultBody, q⟩ ∧
    handler w ⟨some ("PUT"), none, q⟩ = handler w ⟨some ("PUT"), some defaultBody, q⟩ ∧
    jsonLoads defaultBody = .ok (.obj []) :=
  ⟨rfl, rfl, rfl⟩

/-- C6 counterexample: a PUT whose body is present but the empty string
is NOT treated like `\x7b\x7d` — `json.loads` raises and the handler
answers 500 instead of proceeding with all fields missing. -/
theorem empty_body_is_parse_error :
    handler ⟨none, ⟨[], 1⟩⟩ ⟨some ("PUT"), some (""), none⟩ ≠
      handler ⟨none, ⟨[], 1⟩⟩ ⟨some ("PUT"), some defaultBody, none⟩ ∧
    (handler ⟨none, ⟨[], 1⟩⟩ ⟨some ("PUT"), some (""), none⟩).2.statusCode = 500 :=
  ⟨by decide, rfl⟩

/-- C8: an OPTIONS request, whatever the connection state or table
contents and whatever else the request carries, answers 200 with an
empty body and exactly the four CORS headers, and touches nothing. -/
theorem options_cors_contract (connErr : Option String) (db : DB)
    (b : Option String) (q : Option (List (String × String))) :
    handler ⟨connErr, db⟩ ⟨some ("OPTIONS"), b, q⟩ =
      (db, ⟨200,
        [("Access-Control-Allow-Origin", "*"),
         ("Access-Control-Allow-Methods", "GET, POST, PUT, DELETE, OPTIONS"),
         ("Access-Control-Allow-Headers", "Content-Type"),
         ("Access-Control-Max-Age", "86400")], "", false⟩) :=
  rfl

/-- C9: a request with no `httpMethod` field is dispatched exactly like
a GET — with a reachable database it answers 200 with the event
list, not 405. -/
theorem missing_method_dispatches_as_get (w : World) (db : DB) (b : Option String)
    (q : Option (List (String × String))) :
    handler w ⟨none, b, q⟩ = handler w ⟨some ("GET"), b, q⟩ ∧
    (handler ⟨none, db⟩ ⟨none, b, q⟩).2.statusCode = 200 ∧
    (handler ⟨none, db⟩ ⟨none, b, q⟩).2.body =
      jsonDumps (.obj [("events", .arr ((List.insertionSort rowLe db.rows).map wireJson))]) :=
  ⟨rfl, rfl, rfl⟩

/-- C2 counterexample: the empty JSON object is a body that parses to
an object, yet the POST inserts nothing and answers 500 (the required
`title` column receives NULL), not 201. -/
theorem create_empty_object_fails :
    handler ⟨none, ⟨[], 1⟩⟩ ⟨some ("POST"), some defaultBody, none⟩ =
      (⟨[], 1⟩,
       errResp 500 ("null value in column \"title\" violates not-null constraint")) :=
  rfl

/-- C3 counterexample: a PUT whose `id` matches the stored row but whose
body carries no other field answers 500 (NULL into the required `title`
column), not 200 with a rewritten row. -/
theorem update_missing_fields_fails :
    handler ⟨none, ⟨[⟨1, ("A"), ("2024-01-01T00:00:00"), ("t"), none, true⟩], 2⟩⟩
        ⟨some ("PUT"), some ("\x7b\"id\":\"1\"\x7d"), none⟩ =
      (⟨[⟨1, ("A"), ("2024-01-01T00:00:00"), ("t"), none, true⟩], 2⟩,
       errResp 500 ("null value in column \"title\" violates not-null constraint")) :=
  rfl

/-- C4: a DELETE whose query parameters carry no `id` answers 400 with
`\x7b"error": "Event ID is required"\x7d` and mutates nothing — the
guard runs before any database connection, so this holds for every
connection state and table. -/
theorem delete_without_id_is_400 (w : World) (req : Request)
    (hm : req.httpMethod = some ("DELETE"))
    (hid : alistGet (req.queryStringParameters.getD []) ("id") = none) :
    handler w req = (w.db, errResp 400 ("Event ID is required")) := by
  obtain ⟨m0, b, qs⟩ := req
  simp only at hm
  subst hm
  simp only at hid
  have h1 : handler w ⟨some ("DELETE"), b, qs⟩ =
      (match delete_event w (alistGet (qs.getD []) ("id")) with
       | .ok x => x
       | .error e => (w.db, errResp 500 e)) := rfl
  rw [h1, hid]
  rfl

/-- C4 witness: concrete instance — DELETE with an empty parameter
mapping, events present, and even the connection broken. -/
theorem delete_without_id_is_400_witness :
    handler ⟨some ("connection refused"), ⟨[⟨1, ("A"), ("2024-01-01"), ("t"), none, true⟩], 2⟩⟩
        ⟨some ("DELETE"), none, some []⟩ =
      (⟨[⟨1, ("A"), ("2024-01-01"), ("t"), none, true⟩], 2⟩,
       errResp 400 ("Event ID is required")) :=
  delete_without_id_is_400 _ _ rfl rfl

/-- C7: for the four dispatched methods, any exception raised while
parsing the body or talking to the database — modelled as `dispatch`
returning `.error` — surfaces as 500 with the exception's message text
placed verbatim in `\x7b"error": ...\x7d`, uniformly for parse,
connection and SQL failures, and the table is left as it was. -/
theorem uncaught_failure_maps_to_500 (w : World) (req : Request) (m msg : String)
    (hm : req.httpMethod = some m)
    (hmethod : m = ("GET") ∨ m = ("POST") ∨ m = ("PUT") ∨ m = ("DELETE"))
    (herr : dispatch w req = .error msg) :
    handler w req = (w.db, errResp 500 msg) := by
  obtain ⟨m0, b, qs⟩ := req
  simp only at hm
  subst hm
  have hne : ¬ m = ("OPTIONS") := by
    rcases hmethod with h | h | h | h <;> subst h <;> decide
  have h1 : handler w ⟨some m, b, qs⟩ =
      (if m = ("OPTIONS") then (w.db, ⟨200, corsHeaders, "", false⟩)
       else
         match dispatch w ⟨some m, b, qs⟩ with
         | .ok x => x
         | .error e => (w.db, errResp 500 e)) := rfl
  rw [h1, if_neg hne, herr]

/-- C7 witness: a GET against an unreachable database yields 500
carrying the connection error's message. -/
theorem uncaught_failure_maps_to_500_witness :
    handler ⟨some ("could not connect to server: Connection refused"), ⟨[], 5⟩⟩
        ⟨some ("GET"), none, none⟩ =
      (⟨[], 5⟩, errResp 500 ("could not connect to server: Connection refused")) :=
  uncaught_failure_maps_to_500
    ⟨some ("could not connect to server: Connection refused"), ⟨[], 5⟩⟩
    ⟨some ("GET"), none, none⟩ ("GET") ("could not connect to server: Connection refused")
    rfl (Or.inl rfl) rfl

/-- C10: a PUT whose body object carries no `id` member binds NULL in
the WHERE clause, which selects no row, so the handler answers 404
`\x7b"error": "Event not found"\x7d` (not a 400) and no stored event is
modified. -/
theorem put_without_id_is_404 (db : DB) (s : String)
    (q : Option (List (String × String))) (fs : List (String × Json))
    (hparse : jsonLoads s = .ok (.obj fs))
    (hid : alistGet fs ("id") = none) :
    handler ⟨none, db⟩ ⟨some ("PUT"), some s, q⟩ = (db, errResp 404 ("Event not found")) := by
  have h1 : handler ⟨none, db⟩ ⟨some ("PUT"), some s, q⟩ =
      (match ((match jsonLoads s with
               | .error e => .error e
               | .ok data => update_event ⟨none, db⟩ data) :
              Except String (DB × Response)) with
       | .ok x => x
       | .error e => (db, errResp 500 e)) := rfl
  rw [h1, hparse]
  have hfind : db.rows.find?
      (fun r => idParamMatches ((alistGet fs ("id")).getD .null) r.id) = none := by
    rw [hid]
    exact List.find?_eq_none.mpr (fun x _ => by simp [idParamMatches, Option.getD])
  simp only [update_event, get_db_connection, asObj]
  rw [hfind]

/-- C10 witness: PUT on a one-row table with a body carrying the full
field set except `id`. -/
theorem put_without_id_is_404_witness :
    handler ⟨none, ⟨[⟨1, ("A"), ("2024-01-01T00:00:00"), ("t"), none, true⟩], 2⟩⟩
        ⟨some ("PUT"),
         some ("\x7b\"title\":\"X\",\"date\":\"2024-01-01\",\"type\":\"t\"\x7d"), none⟩ =
      (⟨[⟨1, ("A"), ("2024-01-01T00:00:00"), ("t"), none, true⟩], 2⟩,
       errResp 404 ("Event not found")) :=
  put_without_id_is_404 ⟨[⟨1, ("A"), ("2024-01-01T00:00:00"), ("t"), none, true⟩], 2⟩
    ("\x7b\"title\":\"X\",\"date\":\"2024-01-01\",\"type\":\"t\"\x7d") none
    [("title", .str ("X")), ("date", .str ("2024-01-01")), ("type", .str ("t"))]
    rfl rfl

/-- C2 (amended): a POST whose body parses to a JSON object that
supplies `title`, `date` and `type` as strings (the columns the storage
requires non-null), a `description` that is a string or absent/null,
and a boolean `notificationEnabled` — taken as true when the member is
absent — inserts exactly one new row built from those fields and
answers 201 with the full wire object of the new row, its
storage-assigned id rendered as a string. -/
theorem create_inserts_row (db : DB) (s : String)
    (q : Option (List (String × String))) (fs : List (String × Json))
    (title date typ : String) (desc : Option String) (notif : Bool)
    (hparse : jsonLoads s = .ok (.obj fs))
    (htitle : alistGet fs ("title") = some (.str title))
    (hdate : alistGet fs ("date") = some (.str date))
    (htyp : alistGet fs ("type") = some (.str typ))
    (hdesc : sqlTextParam (alistGet fs ("description")) = .ok desc)
    (hnotif : (alistGet fs ("notificationEnabled")).getD (.bool true) = .bool notif) :
    handler ⟨none, db⟩ ⟨some ("POST"), some s, q⟩ =
      (⟨db.rows ++ [⟨db.nextId, title, date, typ, desc, notif⟩], db.nextId + 1⟩,
       mkJsonResp 201 (wireJson ⟨db.nextId, title, date, typ, desc, notif⟩)) := by
  have h1 : handler ⟨none, db⟩ ⟨some ("POST"), some s, q⟩ =
      (match ((match jsonLoads s with
               | .error e => .error e
               | .ok data => create_event ⟨none, db⟩ data) :
              Except String (DB × Response)) with
       | .ok x => x
       | .error e => (db, errResp 500 e)) := rfl
  rw [h1, hparse]
  simp only [create_event, get_db_connection, asObj]
  rw [htitle, hdate, htyp, hdesc, hnotif]
  simp only [sqlTextParam, sqlBoolParam, requireCol]

/-- C2 witness: the spec's concrete Launch scenario. -/
theorem create_inserts_row_witness :
    handler ⟨none, ⟨[], 1⟩⟩ ⟨some ("POST"),
      some ("\x7b\"title\":\"Launch\",\"date\":\"2024-06-01T00:00:00\",\"type\":\"milestone\",\"description\":\"Product launch\",\"notificationEnabled\":false\x7d"),
      none⟩ =
      (⟨[⟨1, ("Launch"), ("2024-06-01T00:00:00"), ("milestone"), some ("Product launch"), false⟩], 2⟩,
       mkJsonResp 201
         (wireJson ⟨1, ("Launch"), ("2024-06-01T00:00:00"), ("milestone"),
                    some ("Product launch"), false⟩)) :=
  create_inserts_row ⟨[], 1⟩
    ("\x7b\"title\":\"Launch\",\"date\":\"2024-06-01T00:00:00\",\"type\":\"milestone\",\"description\":\"Product launch\",\"notificationEnabled\":false\x7d")
    none
    [("title", .str ("Launch")), ("date", .str ("2024-06-01T00:00:00")),
     ("type", .str ("milestone")), ("description", .str ("Product launch")),
     ("notificationEnabled", .bool false)]
    ("Launch") ("2024-06-01T00:00:00") ("milestone") (some ("Product launch")) false
    rfl rfl rfl rfl rfl rfl

/-- C3 (amended): a PUT whose body's `id` matches no stored event
answers 404 `\x7b"error": "Event not found"\x7d` and leaves the table
unchanged (in particular no row is created); a PUT whose `id` matches a
row answers 200 with the updated wire object after rewriting all of
that row's fields, provided the body supplies the storage-required
fields `title`, `date`, `type` as strings (with `description`
string/absent/null and `notificationEnabled` boolean, defaulting to
true when absent) — a matched PUT missing those raises at storage and
answers 500 instead (see the counterexample). -/
theorem update_contract (db : DB) (s : String)
    (q : Option (List (String × String))) (fs : List (String × Json))
    (hparse : jsonLoads s = .ok (.obj fs)) :
    (db.rows.find? (fun r => idParamMatches ((alistGet fs ("id")).getD .null) r.id) = none →
      handler ⟨none, db⟩ ⟨some ("PUT"), some s, q⟩ = (db, errResp 404 ("Event not found"))) ∧
    (∀ (r0 : Row) (title date typ : String) (desc : Option String) (notif : Bool),
      db.rows.find? (fun r => idParamMatches ((alistGet fs ("id")).getD .null) r.id) = some r0 →
      alistGet fs ("title") = some (.str title) →
      alistGet fs ("date") = some (.str date) →
      alistGet fs ("type") = some (.str typ) →
      sqlTextParam (alistGet fs ("description")) = .ok desc →
      (alistGet fs ("notificationEnabled")).getD (.bool true) = .bool notif →
      handler ⟨none, db⟩ ⟨some ("PUT"), some s, q⟩ =
        (⟨db.rows.map (fun r1 =>
            if idParamMatches ((alistGet fs ("id")).getD .null) r1.id then
              ⟨r1.id, title, date, typ, desc, notif⟩
            else r1), db.nextId⟩,
         mkJsonResp 200 (wireJson ⟨r0.id, title, date, typ, desc, notif⟩))) := by
  have h1 : handler ⟨none, db⟩ ⟨some ("PUT"), some s, q⟩ =
      (match ((match jsonLoads s with
               | .error e => .error e
               | .ok data => update_event ⟨none, db⟩ data) :
              Except String (DB × Response)) with
       | .ok x => x
       | .error e => (db, errResp 500 e)) := rfl
  constructor
  · intro hfind
    rw [h1, hparse]
    simp only [update_event, get_db_connection, asObj]
    rw [hfind]
  · intro r0 title date typ desc notif hfind htitle hdate htyp hdesc hnotif
    rw [h1, hparse]
    simp only [update_event, get_db_connection, asObj]
    rw [hfind, htitle, hdate, htyp, hdesc, hnotif]
    simp only [sqlTextParam, sqlBoolParam, requireCol]

/-- C3 witness: the 404 branch at the spec's concrete scenario — a PUT
carrying full fields but an id matching nothing on a one-row table. -/
theorem update_contract_witness :
    handler ⟨none, ⟨[⟨1, ("A"), ("2024-01-01T00:00:00"), ("t"), none, true⟩], 2⟩⟩
        ⟨some ("PUT"),
         some ("\x7b\"id\":\"99\",\"title\":\"X\",\"date\":\"2024-01-01\",\"type\":\"t\"\x7d"),
         none⟩ =
      (⟨[⟨1, ("A"), ("2024-01-01T00:00:00"), ("t"), none, true⟩], 2⟩,
       errResp 404 ("Event not found")) :=
  (update_contract ⟨[⟨1, ("A"), ("2024-01-01T00:00:00"), ("t"), none, true⟩], 2⟩
    ("\x7b\"id\":\"99\",\"title\":\"X\",\"date\":\"2024-01-01\",\"type\":\"t\"\x7d") none
    [("id", .str ("99")), ("title", .str ("X")), ("date", .str ("2024-01-01")),
     ("type", .str ("t"))]
    rfl).1 rfl

/-- C5: a DELETE whose `id` matches no stored event answers 404
`\x7b"error": "Event not found"\x7d`; a DELETE whose `id` matches a
stored event of a well-formed table answers 200 `\x7b"success":
true\x7d` and removes exactly that row — the matched row is gone,
every other row survives, nothing new appears — and a subsequent GET
serves exactly the remaining rows, none of which carries the deleted
id. -/
theorem delete_contract (db : DB) (s : String) (b : Option String)
    (qs : List (String × String))
    (hid : alistGet qs ("id") = some s) (hs : ¬ s = "") :
    (db.rows.find? (fun r => s == toString r.id) = none →
      handler ⟨none, db⟩ ⟨some ("DELETE"), b, some qs⟩ =
        (db, errResp 404 ("Event not found"))) ∧
    (∀ r : Row, db.WF → r ∈ db.rows → s = toString r.id →
      handler ⟨none, db⟩ ⟨some ("DELETE"), b, some qs⟩ =
        (⟨db.rows.filter (fun x => !(s == toString x.id)), db.nextId⟩,
         mkJsonResp 200 (.obj [("success", .bool true)])) ∧
      r ∉ db.rows.filter (fun x => !(s == toString x.id)) ∧
      (∀ x ∈ db.rows, x ≠ r → x ∈ db.rows.filter (fun x => !(s == toString x.id))) ∧
      (∀ x ∈ db.rows.filter (fun x => !(s == toString x.id)), x ∈ db.rows ∧ x.id ≠ r.id) ∧
      handler ⟨none, ⟨db.rows.filter (fun x => !(s == toString x.id)), db.nextId⟩⟩
          ⟨some ("GET"), none, none⟩ =
        (⟨db.rows.filter (fun x => !(s == toString x.id)), db.nextId⟩,
         mkJsonResp 200 (.obj [("events", .arr
           ((List.insertionSort rowLe
              (db.rows.filter (fun x => !(s == toString x.id)))).map wireJson))]))) := by
  have h1 : handler ⟨none, db⟩ ⟨some ("DELETE"), b, some qs⟩ =
      (match delete_event ⟨none, db⟩ (alistGet qs ("id")) with
       | .ok x => x
       | .error e => (db, errResp 500 e)) := rfl
  constructor
  · intro hfind
    rw [h1, hid]
    simp only [delete_event]
    rw [if_neg hs]
    simp only [get_db_connection]
    rw [hfind]
  · intro r hwf hr hsr
    have hpr : (s == toString r.id) = true := by simp [hsr]
    have hsome : (db.rows.find? (fun x => s == toString x.id)).isSome :=
      List.find?_isSome.mpr ⟨r, hr, hpr⟩
    obtain ⟨r', hfind⟩ := Option.isSome_iff_exists.mp hsome
    refine ⟨?_, ?_, ?_, ?_, rfl⟩
    · rw [h1, hid]
      simp only [delete_event]
      rw [if_neg hs]
      simp only [get_db_connection]
      rw [hfind]
    · intro hmem
      have hpx := (List.mem_filter.mp hmem).2
      simp [hsr] at hpx
    · intro x hx hne
      have hxs : ¬ s = toString x.id := by
        intro heq
        exact hne (List.inj_on_of_nodup_map hwf hx hr (heq.symm.trans hsr))
      exact List.mem_filter.mpr ⟨hx, by simp [hxs]⟩
    · intro x hmem
      obtain ⟨hx, hpx⟩ := List.mem_filter.mp hmem
      refine ⟨hx, ?_⟩
      intro hideq
      rw [hsr.trans (congrArg toString hideq).symm] at hpx
      simp at hpx

/-- C5 witness: deleting id 1 from a two-row table — 200, the row is
gone, the other row survives, and the follow-up GET lists only it. -/
theorem delete_contract_witness :
    handler ⟨none, ⟨[⟨1, ("A"), ("2024-01-01T00:00:00"), ("t"), none, true⟩,
                    ⟨2, ("B"), ("2023-01-01T00:00:00"), ("u"), some ("d"), false⟩], 3⟩⟩
        ⟨some ("DELETE"), none, some [("id", "1")]⟩ =
      (⟨[⟨2, ("B"), ("2023-01-01T00:00:00"), ("u"), some ("d"), false⟩], 3⟩,
       mkJsonResp 200 (.obj [("success", .bool true)])) :=
  ((delete_contract
      ⟨[⟨1, ("A"), ("2024-01-01T00:00:00"), ("t"), none, true⟩,
        ⟨2, ("B"), ("2023-01-01T00:00:00"), ("u"), some ("d"), false⟩], 3⟩
      ("1") none [("id", ("1"))] rfl (by decide)).2
    ⟨1, ("A"), ("2024-01-01T00:00:00"), ("t"), none, true⟩
    (by decide) (by decide) rfl).1
